import Mathlib

/-!
Verification of the multi-platform social media posting service.

The definitions below are a shallow embedding of the repository source:
the aggregation endpoint in main.py, the credential check in config.py,
and the Facebook, TikTok and YouTube adapters in platforms/.  Network
calls are modelled by explicit oracle parameters, and Python truthiness
of optional strings and lists is modelled explicitly.
-/

namespace SocialPoster

/-- Python truthiness of an optional string: None and the empty string
are falsy, every other string is truthy. -/
def truthyStr : Option String → Bool
  | none => false
  | some s => s != ""

/-- Python `a or b` on optional strings: the left operand wins when it
is truthy, otherwise the right operand is returned. -/
def pyOr (a b : Option String) : Option String :=
  if truthyStr a then a else b

/-- Python slicing s[:n], character-wise. -/
def pyTake (n : Nat) (s : String) : String :=
  String.mk (s.data.take n)

/-- The hay string contains the needle as a contiguous substring. -/
def str_contains_sub (hay needle : String) : Prop :=
  ∃ a b : String, hay = a ++ needle ++ b

/-- Whether a fallible computation returned normally. -/
def exceptOk {ε α : Type} : Except ε α → Bool
  | Except.ok _ => true
  | Except.error _ => false

/-- Pydantic model PostContent from main.py: text and platforms are
required, media_urls and schedule_time optional.  The field types carry
no non-emptiness constraint, exactly as in the source. -/
structure PostContent where
  text : String
  platforms : List String
  media_urls : Option (List String)
  schedule_time : Option String
  deriving Repr, DecidableEq

/-- A request body before pydantic validation: each field may be absent. -/
structure RawPostBody where
  text : Option String
  platforms : Option (List String)
  media_urls : Option (List String)
  schedule_time : Option String
  deriving Repr, DecidableEq

/-- Pydantic validation of PostContent: it only checks that the two
required fields are present; empty strings and empty lists pass. -/
def parse_post_content (b : RawPostBody) : Except String PostContent :=
  match b.text, b.platforms with
  | some t, some ps => Except.ok ⟨t, ps, b.media_urls, b.schedule_time⟩
  | none, _ => Except.error "field required: text"
  | _, none => Except.error "field required: platforms"

/-- Response model PostResponse from main.py. -/
structure PostResponse where
  success : Bool
  platform : String
  post_id : Option String
  message : String
  error : Option String
  deriving Repr, DecidableEq

/-- The dictionary an adapter returns from create_post: the aggregator
reads only the post_id key; the success key the adapters also set is
carried along to show it is never consulted. -/
structure PostDict where
  post_id : Option String
  success : Bool
  deriving Repr, DecidableEq

/-- Keys of the platform_posters dictionary of main.py, in insertion
order. -/
def platform_posters : List String :=
  ["facebook", "instagram", "tiktok", "x", "threads", "youtube"]

/-- One iteration of the loop of post_to_platforms in main.py: an
unregistered platform yields a synthesized failure outcome without
consulting the adapter; otherwise the adapter call (modelled by the
oracle, returning the dict or the raised exception text) is mapped to
the normalized outcome. -/
def process_platform (call : String → Except String PostDict)
    (platform : String) : PostResponse :=
  if platform ∈ platform_posters then
    match call platform with
    | Except.ok post_result =>
        { success := true
          platform := platform
          post_id := post_result.post_id
          message := "Successfully posted to " ++ platform
          error := none }
    | Except.error e =>
        { success := false
          platform := platform
          post_id := none
          message := "Failed to post to " ++ platform
          error := some e }
  else
    { success := false
      platform := platform
      post_id := none
      message := "Platform not supported"
      error := some ("Platform \x27" ++ platform ++ "\x27 is not supported") }

/-- The body of post_to_platforms in main.py: iterate over the requested
platforms in order, appending one outcome per platform. -/
def post_to_platforms (call : String → Except String PostDict)
    (content : PostContent) : List PostResponse :=
  content.platforms.foldl (fun results p => results ++ [process_platform call p]) []

/-- Result of an endpoint: a 200 body or a 422 validation error. -/
inductive ApiResult (α : Type) where
  | ok (body : α)
  | validationError (detail : String)
  deriving Repr, DecidableEq

/-- The POST /api/post endpoint: pydantic validation of the body, then
the aggregation loop. -/
def api_post (call : String → Except String PostDict)
    (body : RawPostBody) : ApiResult (List PostResponse) :=
  match parse_post_content body with
  | Except.error e => ApiResult.validationError e
  | Except.ok content => ApiResult.ok (post_to_platforms call content)

/-- GET / returns this fixed list of supported platform ids (main.py). -/
def root_supported_platforms : List String :=
  ["facebook", "instagram", "tiktok", "x", "threads", "youtube"]

/-- An entry of the static catalog of GET /api/platforms (main.py). -/
structure PlatformInfo where
  id : String
  name : String
  description : String
  supports_media : Bool
  supports_video : Bool
  supports_scheduling : Bool
  deriving Repr, DecidableEq

/-- The static catalog returned by GET /api/platforms (main.py). -/
def api_platforms_catalog : List PlatformInfo :=
  [ { id := "facebook", name := "Facebook",
      description := "Đăng bài lên Facebook Page hoặc Profile",
      supports_media := true, supports_video := true, supports_scheduling := true },
    { id := "instagram", name := "Instagram",
      description := "Đăng bài lên Instagram Feed, Stories, Reels",
      supports_media := true, supports_video := true, supports_scheduling := true },
    { id := "tiktok", name := "TikTok",
      description := "Đăng video lên TikTok",
      supports_media := false, supports_video := true, supports_scheduling := true },
    { id := "x", name := "X (Twitter)",
      description := "Đăng tweet lên X",
      supports_media := true, supports_video := true, supports_scheduling := false },
    { id := "threads", name := "Threads",
      description := "Đăng bài lên Threads",
      supports_media := true, supports_video := true, supports_scheduling := false },
    { id := "youtube", name := "YouTube",
      description := "Upload video lên YouTube",
      supports_media := false, supports_video := true, supports_scheduling := true } ]

/-- GET /health reports the keys of the platform_posters dictionary as
platforms_available (main.py). -/
def health_platforms_available : List String :=
  platform_posters

/-- Config.validate_credentials of config.py: the per-platform presence
check over the environment (os.getenv returns none for an unset
variable; the check is an is-not-None test), with a false default for
unknown platforms. -/
def validate_credentials (env : String → Option String) (platform : String) : Bool :=
  if platform = "facebook" then
    (env "FACEBOOK_ACCESS_TOKEN").isSome
  else if platform = "instagram" then
    (env "INSTAGRAM_ACCESS_TOKEN").isSome && (env "INSTAGRAM_ACCOUNT_ID").isSome
  else if platform = "tiktok" then
    (env "TIKTOK_ACCESS_TOKEN").isSome
  else if platform = "x" then
    (env "X_BEARER_TOKEN").isSome
      || ((env "X_ACCESS_TOKEN").isSome && (env "X_ACCESS_TOKEN_SECRET").isSome)
  else if platform = "threads" then
    (env "THREADS_ACCESS_TOKEN").isSome && (env "THREADS_USER_ID").isSome
  else if platform = "youtube" then
    (env "YOUTUBE_ACCESS_TOKEN").isSome
  else
    false

/-- Outcome of the live identity-verification HTTP call an adapter
performs during authenticate: a 200 with identity fields, or a non-2xx
with an error body. -/
inductive VerifyResult where
  | ok (user_id user_name : Option String)
  | httpError (body : String)
  deriving Repr, DecidableEq

/-- Identity fields returned by a successful authenticate. -/
structure AuthInfo where
  user_id : Option String
  user_name : Option String
  deriving Repr, DecidableEq

/-- Mutable state of the FacebookPoster instance (base_poster.py plus
facebook_api.py): stored token, stored page id, authenticated flag. -/
structure FacebookState where
  access_token : Option String
  page_id : Option String
  authenticated : Bool
  deriving Repr, DecidableEq

/-- FacebookPoster.authenticate: the token is the explicit argument if
truthy, else os.getenv FACEBOOK_ACCESS_TOKEN; the page id comes from
additional_params, else the stored value or the environment.  A falsy
token raises the missing-credentials error; otherwise the verification
call decides success.  All assignments happen before any raise, and the
except branch clears the authenticated flag. -/
def fb_authenticate (st : FacebookState) (env : String → Option String)
    (verify : String → VerifyResult)
    (access_token : Option String) (page_id_param : Option String) :
    FacebookState × Except String AuthInfo :=
  let tok := pyOr access_token (env "FACEBOOK_ACCESS_TOKEN")
  let pid :=
    match page_id_param with
    | some p => some p
    | none => pyOr st.page_id (env "FACEBOOK_PAGE_ID")
  if truthyStr tok then
    match verify (tok.getD "") with
    | VerifyResult.ok uid uname =>
        ({ access_token := tok, page_id := pid, authenticated := true },
         Except.ok { user_id := uid, user_name := uname })
    | VerifyResult.httpError body =>
        ({ access_token := tok, page_id := pid, authenticated := false },
         Except.error ("Facebook authentication error: Authentication failed: " ++ body))
  else
    ({ access_token := tok, page_id := pid, authenticated := false },
     Except.error "Facebook authentication error: Facebook access token is required")

/-- Mutable state of the TikTokPoster instance. -/
structure TikTokState where
  access_token : Option String
  client_key : Option String
  client_secret : Option String
  authenticated : Bool
  deriving Repr, DecidableEq

/-- TikTokPoster.authenticate: the token is the explicit argument if
truthy, else os.getenv TIKTOK_ACCESS_TOKEN; client key and secret fall
back to the stored values.  A falsy token raises the
missing-credentials error; otherwise the verification call decides
success. -/
def tiktok_authenticate (st : TikTokState) (env : String → Option String)
    (verify : String → VerifyResult)
    (access_token api_key api_secret : Option String) :
    TikTokState × Except String AuthInfo :=
  let tok := pyOr access_token (env "TIKTOK_ACCESS_TOKEN")
  let ck := pyOr api_key st.client_key
  let cs := pyOr api_secret st.client_secret
  if truthyStr tok then
    match verify (tok.getD "") with
    | VerifyResult.ok oid dname =>
        ({ access_token := tok, client_key := ck, client_secret := cs,
           authenticated := true },
         Except.ok { user_id := oid, user_name := dname })
    | VerifyResult.httpError body =>
        ({ access_token := tok, client_key := ck, client_secret := cs,
           authenticated := false },
         Except.error ("TikTok authentication error: Authentication failed: " ++ body))
  else
    ({ access_token := tok, client_key := ck, client_secret := cs,
       authenticated := false },
     Except.error "TikTok authentication error: TikTok access token is required")

/-- The post_data dictionary FacebookPoster.create_post sends to the
feed endpoint; absent keys are none. -/
structure FBPostData where
  message : String
  access_token : Option String
  link : Option String
  attached_media : Option (List String)
  published : Option Bool
  scheduled_publish_time : Option String
  deriving Repr, DecidableEq

/-- Construction of post_data in FacebookPoster.create_post: message and
token always; with a truthy media list, the single URL goes under link
and several URLs go under attached_media; a truthy schedule_time adds
published = false and scheduled_publish_time. -/
def fb_post_data (text : String) (access_token : Option String)
    (media_urls : Option (List String)) (schedule_time : Option String) : FBPostData :=
  let base : FBPostData :=
    { message := text, access_token := access_token, link := none,
      attached_media := none, published := none, scheduled_publish_time := none }
  let withMedia :=
    match media_urls with
    | some urls =>
        if 0 < urls.length then
          if urls.length = 1 then { base with link := urls.head? }
          else { base with attached_media := some urls }
        else base
    | none => base
  if truthyStr schedule_time then
    { withMedia with published := some false, scheduled_publish_time := schedule_time }
  else
    withMedia

/-- Outcome of the HTTP POST to the feed endpoint. -/
inductive HttpPostResult where
  | ok (id : Option String)
  | httpError (body : String)
  deriving Repr, DecidableEq

/-- FacebookPoster.create_post: authenticate first when the flag is not
set (with no arguments, so the environment fallback applies); pick the
page feed endpoint when a page id is truthy; build post_data; POST it;
map a 2xx to the result dict and anything else to a wrapped error. -/
def fb_create_post (st : FacebookState) (env : String → Option String)
    (verify : String → VerifyResult)
    (postCall : String → FBPostData → HttpPostResult)
    (text : String) (media_urls : Option (List String))
    (schedule_time : Option String) :
    FacebookState × Except String PostDict :=
  let auth :=
    if st.authenticated then (st, Except.ok { user_id := none, user_name := none })
    else fb_authenticate st env verify none none
  match auth with
  | (st1, Except.error e) => (st1, Except.error ("Facebook post error: " ++ e))
  | (st1, Except.ok _) =>
      let endpoint :=
        if truthyStr st1.page_id then (st1.page_id.getD "") ++ "/feed" else "me/feed"
      let post_data := fb_post_data text st1.access_token media_urls schedule_time
      match postCall endpoint post_data with
      | HttpPostResult.ok pid => (st1, Except.ok { post_id := pid, success := true })
      | HttpPostResult.httpError body =>
          (st1, Except.error ("Facebook post error: Post failed: " ++ body))

/-- Position of the first newline in a character list: none when there
is no newline, otherwise the parts before and after it. -/
def breakAtNewline : List Char → Option (List Char × List Char)
  | [] => none
  | c :: cs =>
      if c = '\n' then some ([], cs)
      else
        match breakAtNewline cs with
        | none => none
        | some (a, b) => some (c :: a, b)

/-- Python text.split of the newline character with maxsplit 1, as used
by YouTubePoster.create_post. -/
def py_split_newline_once (s : String) : List String :=
  match breakAtNewline s.data with
  | none => [s]
  | some (a, b) => [String.mk a, String.mk b]

/-- Title and description computed by YouTubePoster.create_post: the
title is the first split part truncated to 100 characters; the
description is the second part when the split produced two parts and
otherwise the whole text. -/
def yt_title_description (text : String) : String × String :=
  let lines := py_split_newline_once text
  let title := pyTake 100 (lines.headD "")
  let description := if 1 < lines.length then lines.getD 1 "" else text
  (title, description)

theorem foldl_push_eq_map (f : String → PostResponse) (l : List String)
    (acc : List PostResponse) :
    l.foldl (fun results p => results ++ [f p]) acc = acc ++ l.map f := by
  induction l generalizing acc with
  | nil => simp
  | cons x xs ih => simp [ih]

theorem post_to_platforms_eq_map (call : String → Except String PostDict)
    (content : PostContent) :
    post_to_platforms call content = content.platforms.map (process_platform call) := by
  simp [post_to_platforms, foldl_push_eq_map]

theorem process_platform_platform (call : String → Except String PostDict) (p : String) :
    (process_platform call p).platform = p := by
  unfold process_platform
  split
  · split <;> rfl
  · rfl

theorem breakAtNewline_of_not_mem (l : List Char) (h : '\n' ∉ l) :
    breakAtNewline l = none := by
  induction l with
  | nil => rfl
  | cons c cs ih =>
      rw [breakAtNewline]
      rw [List.mem_cons, not_or] at h
      rw [if_neg (fun hc => h.1 hc.symm), ih h.2]

theorem breakAtNewline_append (a b : List Char) (h : '\n' ∉ a) :
    breakAtNewline (a ++ '\n' :: b) = some (a, b) := by
  induction a with
  | nil => simp [breakAtNewline]
  | cons c cs ih =>
      rw [List.mem_cons, not_or] at h
      rw [List.cons_append, breakAtNewline, if_neg (fun hc => h.1 hc.symm), ih h.2]

/-- C1: every request to POST /api/post with platform list [p1..pn]
returns a list of n outcomes whose i-th element has platform equal to
pi, in input order, for every behaviour of the adapters. -/
theorem batch_preserves_length_and_platform_order
    (call : String → Except String PostDict) (content : PostContent) :
    (post_to_platforms call content).length = content.platforms.length ∧
    ∀ i : Nat, ((post_to_platforms call content)[i]?).map PostResponse.platform
      = content.platforms[i]? := by
  constructor
  · simp [post_to_platforms_eq_map]
  · intro i
    rw [post_to_platforms_eq_map, List.getElem?_map, Option.map_map]
    cases h : content.platforms[i]? with
    | none => rfl
    | some p => simp [Function.comp, process_platform_platform]

/-- C2: a platform id with no registered adapter yields an outcome with
success = false whose message contains "not supported"; no adapter is
invoked for that id (the outcome is independent of the adapter oracle);
and every batch is processed element-wise, so the remaining ids are
unaffected. -/
theorem unsupported_platform_outcome
    (call call2 : String → Except String PostDict) (p : String)
    (hp : p ∉ platform_posters) :
    (process_platform call p).success = false ∧
    str_contains_sub (process_platform call p).message "not supported" ∧
    process_platform call p = process_platform call2 p ∧
    ∀ content : PostContent,
      post_to_platforms call content = content.platforms.map (process_platform call) := by
  refine ⟨?_, ?_, ?_, ?_⟩
  · simp [process_platform, hp]
  · refine ⟨"Platform ", "", ?_⟩
    have hm : (process_platform call p).message = "Platform not supported" := by
      simp [process_platform, hp]
    rw [hm]
    rfl
  · simp [process_platform, hp]
  · intro content
    exact post_to_platforms_eq_map call content

theorem unsupported_platform_outcome_witness :
    (process_platform (fun _ => Except.error "e1") "bogus").success = false ∧
    str_contains_sub (process_platform (fun _ => Except.error "e1") "bogus").message
      "not supported" ∧
    process_platform (fun _ => Except.error "e1") "bogus"
      = process_platform (fun _ => Except.ok ⟨some "id", true⟩) "bogus" ∧
    ∀ content : PostContent,
      post_to_platforms (fun _ => Except.error "e1") content
        = content.platforms.map (process_platform (fun _ => Except.error "e1")) :=
  unsupported_platform_outcome (fun _ => Except.error "e1")
    (fun _ => Except.ok ⟨some "id", true⟩) "bogus" (by decide)

/-- C10: for a supported platform, the outcome is success = true with
message "Successfully posted to p" and the post_id read from the dict
exactly when the adapter returns normally, and success = false with
message "Failed to post to p" and the raised error text otherwise; the
success flag inside the returned dict is never consulted. -/
theorem supported_outcome_matches_adapter_result
    (call : String → Except String PostDict) (p : String)
    (hp : p ∈ platform_posters) :
    (∀ d : PostDict, call p = Except.ok d →
      process_platform call p =
        { success := true, platform := p, post_id := d.post_id,
          message := "Successfully posted to " ++ p, error := none }) ∧
    (∀ e : String, call p = Except.error e →
      process_platform call p =
        { success := false, platform := p, post_id := none,
          message := "Failed to post to " ++ p, error := some e }) := by
  constructor
  · intro d hd
    simp [process_platform, hp, hd]
  · intro e he
    simp [process_platform, hp, he]

theorem supported_outcome_matches_adapter_result_witness :
    process_platform (fun _ => Except.ok ⟨some "42", false⟩) "facebook" =
      { success := true, platform := "facebook", post_id := some "42",
        message := "Successfully posted to " ++ "facebook", error := none } :=
  (supported_outcome_matches_adapter_result (fun _ => Except.ok ⟨some "42", false⟩)
    "facebook" (by decide)).1 ⟨some "42", false⟩ rfl

/-- C3: the code accepts an empty text and an empty platforms list: no
validation error is produced, an empty platforms list yields an empty
outcome list with a 200 body, and an empty text reaches the adapter
(the response tracks the adapter oracle).  This contradicts the claim
and the tests of the repository, which expect a 422 validation error. -/
theorem empty_fields_pass_validation :
    (api_post (fun _ => Except.error "boom")
        { text := some "", platforms := some ["facebook"],
          media_urls := none, schedule_time := none }
      = ApiResult.ok [{ success := false, platform := "facebook", post_id := none,
                        message := "Failed to post to facebook", error := some "boom" }]) ∧
    (api_post (fun _ => Except.error "boom")
        { text := some "hello", platforms := some [],
          media_urls := none, schedule_time := none }
      = ApiResult.ok []) ∧
    (api_post (fun _ => Except.ok ⟨some "99", true⟩)
        { text := some "", platforms := some ["facebook"],
          media_urls := none, schedule_time := none }
      = ApiResult.ok [{ success := true, platform := "facebook", post_id := some "99",
                        message := "Successfully posted to facebook", error := none }]) := by
  refine ⟨?_, ?_, ?_⟩ <;> rfl

/-- C9: the platforms_available list of GET /health is a subset of the
six ids of GET / and of the ids of the GET /api/platforms catalog. -/
theorem health_subset_of_root_and_catalog :
    health_platforms_available ⊆ root_supported_platforms ∧
    health_platforms_available ⊆ api_platforms_catalog.map PlatformInfo.id := by
  constructor <;> decide

/-- C7: the credential-presence check reports each platform available
exactly under its per-platform rule: X needs the bearer token or the
access-token and secret pair, Instagram and Threads need a token and an
account or user id, Facebook, TikTok and YouTube need only a token. -/
theorem validate_credentials_rules (env : String → Option String) :
    (validate_credentials env "x" = true ↔
      (env "X_BEARER_TOKEN").isSome = true ∨
      ((env "X_ACCESS_TOKEN").isSome = true ∧ (env "X_ACCESS_TOKEN_SECRET").isSome = true)) ∧
    (validate_credentials env "instagram" = true ↔
      (env "INSTAGRAM_ACCESS_TOKEN").isSome = true ∧ (env "INSTAGRAM_ACCOUNT_ID").isSome = true) ∧
    (validate_credentials env "threads" = true ↔
      (env "THREADS_ACCESS_TOKEN").isSome = true ∧ (env "THREADS_USER_ID").isSome = true) ∧
    (validate_credentials env "facebook" = true ↔ (env "FACEBOOK_ACCESS_TOKEN").isSome = true) ∧
    (validate_credentials env "tiktok" = true ↔ (env "TIKTOK_ACCESS_TOKEN").isSome = true) ∧
    (validate_credentials env "youtube" = true ↔ (env "YOUTUBE_ACCESS_TOKEN").isSome = true) := by
  refine ⟨?_, ?_, ?_, ?_, ?_, ?_⟩ <;>
    simp [validate_credentials, Bool.and_eq_true, Bool.or_eq_true]

/-- C4 is refuted: with a token stored on the adapter, no explicit
token and an unset environment, authenticate fails with the
missing-token error instead of using the stored token.  The fallback of
the source is the environment variable, not the stored value. -/
theorem stored_token_ignored_counterexample :
    ((⟨some "T1", none, false⟩ : FacebookState).access_token = some "T1") ∧
    (fb_authenticate ⟨some "T1", none, false⟩ (fun _ => none)
        (fun _ => VerifyResult.ok none none) none none).2
      = Except.error "Facebook authentication error: Facebook access token is required" :=
  ⟨rfl, rfl⟩

/-- C4 amended: an explicit truthy token wins; otherwise the
environment variable is read at call time and the previously stored
token is never consulted; authenticate fails with the missing-token
error exactly when neither the explicit argument nor the environment
yields a truthy token, and otherwise the outcome is decided by the
verification call.  Stated for the Facebook and TikTok adapters. -/
theorem authenticate_token_precedence
    (st : FacebookState) (ts : TikTokState) (env : String → Option String)
    (verify : String → VerifyResult)
    (tok pid api_key api_secret : Option String) :
    ((fb_authenticate st env verify tok pid).1.access_token
        = pyOr tok (env "FACEBOOK_ACCESS_TOKEN")) ∧
    (truthyStr tok = true →
      (fb_authenticate st env verify tok pid).1.access_token = tok) ∧
    (truthyStr (pyOr tok (env "FACEBOOK_ACCESS_TOKEN")) = false →
      (fb_authenticate st env verify tok pid).2
        = Except.error "Facebook authentication error: Facebook access token is required") ∧
    (truthyStr (pyOr tok (env "FACEBOOK_ACCESS_TOKEN")) = true →
      (∀ u n : Option String,
        verify ((pyOr tok (env "FACEBOOK_ACCESS_TOKEN")).getD "") = VerifyResult.ok u n →
        (fb_authenticate st env verify tok pid).2 = Except.ok ⟨u, n⟩) ∧
      (∀ body : String,
        verify ((pyOr tok (env "FACEBOOK_ACCESS_TOKEN")).getD "") = VerifyResult.httpError body →
        (fb_authenticate st env verify tok pid).2
          = Except.error ("Facebook authentication error: Authentication failed: " ++ body))) ∧
    ((tiktok_authenticate ts env verify tok api_key api_secret).1.access_token
        = pyOr tok (env "TIKTOK_ACCESS_TOKEN")) ∧
    (truthyStr (pyOr tok (env "TIKTOK_ACCESS_TOKEN")) = false →
      (tiktok_authenticate ts env verify tok api_key api_secret).2
        = Except.error "TikTok authentication error: TikTok access token is required") := by
  refine ⟨?_, ?_, ?_, ?_, ?_, ?_⟩
  · simp only [fb_authenticate]
    split
    · split <;> rfl
    · rfl
  · intro h
    simp only [fb_authenticate, pyOr, h, if_true]
    split <;> rfl
  · intro h
    simp [fb_authenticate, h]
  · intro h
    constructor
    · intro u n hv
      simp [fb_authenticate, h, hv]
    · intro body hv
      simp [fb_authenticate, h, hv]
  · simp only [tiktok_authenticate]
    split
    · split <;> rfl
    · rfl
  · intro h
    simp [tiktok_authenticate, h]

theorem authenticate_token_precedence_witness :
    (fb_authenticate ⟨none, none, false⟩ (fun _ => none)
        (fun _ => VerifyResult.ok none none) (some "E") none).1.access_token = some "E" ∧
    (fb_authenticate ⟨none, none, false⟩ (fun _ => none)
        (fun _ => VerifyResult.ok none none) (some "E") none).2
      = Except.ok ⟨none, none⟩ ∧
    (tiktok_authenticate ⟨none, none, none, false⟩ (fun _ => none)
        (fun _ => VerifyResult.ok none none) none none none).2
      = Except.error "TikTok authentication error: TikTok access token is required" := by
  have h := authenticate_token_precedence ⟨none, none, false⟩ ⟨none, none, none, false⟩
    (fun _ => none) (fun _ => VerifyResult.ok none none) (some "E") none none none
  have h2 := authenticate_token_precedence ⟨none, none, false⟩ ⟨none, none, none, false⟩
    (fun _ => none) (fun _ => VerifyResult.ok none none) none none none none
  exact ⟨h.2.1 (by decide), (h.2.2.2.1 (by decide)).1 none none rfl,
    h2.2.2.2.2.2 (by decide)⟩

/-- C5 is refuted at a text without a newline: the description the code
computes is the whole text, not the empty remainder. -/
theorem yt_description_whole_text_counterexample :
    (yt_title_description "hello").2 = "hello" ∧ ("hello" : String) ≠ "" :=
  ⟨rfl, by decide⟩

/-- C5 amended: the title is the first line truncated to 100 characters
(and always has at most 100 characters); when the text contains a
newline the description is the remainder after the first newline; when
the text contains no newline the description is the whole text. -/
theorem yt_title_description_amended (text : String) :
    (('\n' ∉ text.data) →
      yt_title_description text = (pyTake 100 text, text)) ∧
    (∀ a b : List Char, '\n' ∉ a → text.data = a ++ '\n' :: b →
      yt_title_description text = (pyTake 100 (String.mk a), String.mk b)) ∧
    (yt_title_description text).1.data.length ≤ 100 := by
  refine ⟨?_, ?_, ?_⟩
  · intro h
    simp [yt_title_description, py_split_newline_once, breakAtNewline_of_not_mem _ h]
  · intro a b ha hdata
    have hb : breakAtNewline text.data = some (a, b) := by
      rw [hdata]
      exact breakAtNewline_append a b ha
    simp [yt_title_description, py_split_newline_once, hb]
  · have hgen : ∀ s : String, (pyTake 100 s).data.length ≤ 100 := by
      intro s
      simp [pyTake]
    simp only [yt_title_description]
    exact hgen _

theorem yt_title_description_amended_witness :
    yt_title_description "a\nbc" = (pyTake 100 (String.mk ['a']), String.mk ['b', 'c']) ∧
    yt_title_description "solo" = (pyTake 100 "solo", "solo") := by
  have h1 := yt_title_description_amended "a\nbc"
  have h2 := yt_title_description_amended "solo"
  exact ⟨h1.2.1 ['a'] ['b', 'c'] (by decide) (by decide), h2.1 (by decide)⟩

/-- C6 is refuted at schedule_time given as the empty string: the value
is supplied but falsy in Python, so the code sets neither published nor
scheduled_publish_time. -/
theorem schedule_time_empty_string_ignored :
    ((some "" : Option String) ≠ (none : Option String)) ∧
    (fb_post_data "hi" (some "tok") none (some "")).published = none ∧
    (fb_post_data "hi" (some "tok") none (some "")).scheduled_publish_time = none :=
  ⟨by decide, rfl, rfl⟩

/-- C6 amended: with exactly one media URL the payload carries it under
link and leaves attached_media unset; with more than one the whole list
goes under attached_media and link stays unset; with a non-empty
schedule_time the payload sets published = false and
scheduled_publish_time to that value; a falsy schedule_time (absent or
the empty string) sets neither. -/
theorem fb_post_data_media_and_scheduling
    (text : String) (access_token : Option String)
    (media_urls : Option (List String)) (schedule_time : Option String) :
    (∀ u : String, media_urls = some [u] →
      (fb_post_data text access_token media_urls schedule_time).link = some u ∧
      (fb_post_data text access_token media_urls schedule_time).attached_media = none) ∧
    (∀ l : List String, media_urls = some l → 1 < l.length →
      (fb_post_data text access_token media_urls schedule_time).attached_media = some l ∧
      (fb_post_data text access_token media_urls schedule_time).link = none) ∧
    (∀ s : String, schedule_time = some s → s ≠ "" →
      (fb_post_data text access_token media_urls schedule_time).published = some false ∧
      (fb_post_data text access_token media_urls schedule_time).scheduled_publish_time
        = some s) ∧
    (truthyStr schedule_time = false →
      (fb_post_data text access_token media_urls schedule_time).published = none ∧
      (fb_post_data text access_token media_urls schedule_time).scheduled_publish_time
        = none) := by
  refine ⟨?_, ?_, ?_, ?_⟩
  · intro u h
    subst h
    cases hs : truthyStr schedule_time <;> simp [fb_post_data, hs]
  · intro l h hl
    subst h
    have h1 : ¬l.length = 1 := by omega
    have h0 : 0 < l.length := by omega
    cases hs : truthyStr schedule_time <;> simp [fb_post_data, hs, h0, h1]
  · intro s h hne
    subst h
    have ht : truthyStr (some s) = true := by
      simp [truthyStr, hne]
    simp [fb_post_data, ht]
  · intro h
    rcases media_urls with _ | urls
    · simp [fb_post_data, h]
    · by_cases h1 : urls.length = 1
      · simp [fb_post_data, h, h1]
      · by_cases h0 : 0 < urls.length <;> simp [fb_post_data, h, h1, h0]

theorem fb_post_data_media_and_scheduling_witness :
    (fb_post_data "t" (some "k") (some ["u1"]) (some "123")).link = some "u1" ∧
    (fb_post_data "t" (some "k") (some ["u1", "u2"]) none).attached_media
      = some ["u1", "u2"] ∧
    (fb_post_data "t" (some "k") (some ["u1"]) (some "123")).published = some false := by
  have hone := fb_post_data_media_and_scheduling "t" (some "k") (some ["u1"]) (some "123")
  have htwo := fb_post_data_media_and_scheduling "t" (some "k") (some ["u1", "u2"]) none
  exact ⟨(hone.1 "u1" rfl).1, (htwo.2.1 ["u1", "u2"] rfl (by decide)).1,
    (hone.2.2.1 "123" rfl (by decide)).1⟩

/-- C8: after FacebookPoster.authenticate the authenticated flag is
true exactly when the result is a success, which happens exactly when a
truthy token was resolved and the verification call returned the
identity; any failing authenticate leaves the flag false; and when the
flag is not set, create_post runs authenticate first: its state is the
one authenticate produced and an authentication error aborts the post
with the wrapped error. -/
theorem authenticated_flag_iff_verification
    (st : FacebookState) (env : String → Option String)
    (verify : String → VerifyResult)
    (postCall : String → FBPostData → HttpPostResult)
    (tok pid : Option String) (text : String)
    (media_urls : Option (List String)) (schedule_time : Option String) :
    ((fb_authenticate st env verify tok pid).1.authenticated = true ↔
      truthyStr (pyOr tok (env "FACEBOOK_ACCESS_TOKEN")) = true ∧
      ∃ u n : Option String,
        verify ((pyOr tok (env "FACEBOOK_ACCESS_TOKEN")).getD "") = VerifyResult.ok u n) ∧
    ((fb_authenticate st env verify tok pid).1.authenticated = true ↔
      ∃ a : AuthInfo, (fb_authenticate st env verify tok pid).2 = Except.ok a) ∧
    (∀ e : String, (fb_authenticate st env verify tok pid).2 = Except.error e →
      (fb_authenticate st env verify tok pid).1.authenticated = false) ∧
    (st.authenticated = false →
      (fb_create_post st env verify postCall text media_urls schedule_time).1
        = (fb_authenticate st env verify none none).1 ∧
      ∀ e : String, (fb_authenticate st env verify none none).2 = Except.error e →
        (fb_create_post st env verify postCall text media_urls schedule_time).2
          = Except.error ("Facebook post error: " ++ e)) := by
  have hflag : (fb_authenticate st env verify tok pid).1.authenticated
      = exceptOk (fb_authenticate st env verify tok pid).2 := by
    simp only [fb_authenticate]
    split
    · split <;> rfl
    · rfl
  refine ⟨?_, ?_, ?_, ?_⟩
  · simp only [fb_authenticate]
    split
    · next h =>
        split
        · next u n heq => simp [h, heq]
        · next body heq => simp [h, heq]
    · next h => simp [h]
  · rw [hflag]
    generalize (fb_authenticate st env verify tok pid).2 = r
    cases r <;> simp [exceptOk]
  · intro e he
    rw [hflag, he]
    rfl
  · intro hst
    constructor
    · simp only [fb_create_post, hst, Bool.false_eq_true, if_false]
      rcases h : fb_authenticate st env verify none none with ⟨st1, r⟩
      rcases r with e1 | a
      · simp
      · simp only []
        split <;> rfl
    · intro e he
      simp only [fb_create_post, hst, Bool.false_eq_true, if_false]
      rcases h : fb_authenticate st env verify none none with ⟨st1, r⟩
      rw [h] at he
      rcases r with e1 | a
      · simp only [Except.error.injEq] at he
        simp [he]
      · simp at he

theorem authenticated_flag_iff_verification_witness :
    (fb_create_post ⟨none, none, false⟩ (fun _ => none)
        (fun _ => VerifyResult.ok none none)
        (fun _ _ => HttpPostResult.ok (some "p")) "hi" none none).1
      = (fb_authenticate ⟨none, none, false⟩ (fun _ => none)
          (fun _ => VerifyResult.ok none none) none none).1 ∧
    (fb_create_post ⟨none, none, false⟩ (fun _ => none)
        (fun _ => VerifyResult.ok none none)
        (fun _ _ => HttpPostResult.ok (some "p")) "hi" none none).2
      = Except.error ("Facebook post error: "
          ++ "Facebook authentication error: Facebook access token is required") := by
  have h := authenticated_flag_iff_verification ⟨none, none, false⟩ (fun _ => none)
    (fun _ => VerifyResult.ok none none) (fun _ _ => HttpPostResult.ok (some "p"))
    none none "hi" none none
  exact ⟨(h.2.2.2 rfl).1, (h.2.2.2 rfl).2 _ rfl⟩

end SocialPoster
